import Mathlib

/-!
Shallow embedding of `src/neuron_core.c` (AWS Neuron driver, v1 devices):
per-core semaphore/event register accessors, the notification-queue (NQ)
mmap offset codec, and the NQ lifecycle operations (init / destroy / mmap).

Machine integers are modelled as `Nat`.  The one place where C integer
truncation is observable - the `u8 nq_id` derived in `nc_nq_init`,
`nc_nq_destroy` and `nc_nq_mmap` - carries an explicit `% 256`.  All other
arithmetic in the translated code stays far below `2 ^ 64` for the inputs
the claims quantify over, so no further wrap-around is modelled.  Fallible
operations return `Except Int`, carrying the C return code on failure;
hardware register writes, delays and allocator calls are recorded in an
explicit effect trace.
-/

deriving instance DecidableEq for Except

namespace NeuronCore

/-- Modelled from the spec: `V1_NC_PER_DEVICE` comes from the v1 device
headers, which are not under `src/`.  The source comment says an inf1
device has 4 neuron cores and 64 = `V1_NC_PER_DEVICE * MAX_NQ_ENGINE *
NQ_TYPE_PER_ENGINE` notification queues. -/
def V1_NC_PER_DEVICE : Nat := 4

/-- Modelled from the spec: maximum notification-queue engines per core,
from the device headers (64 = 4 * 4 * 4 queues per the source comment). -/
def MAX_NQ_ENGINE : Nat := 4

/-- Modelled from the spec: notification-queue types per engine, from the
device headers; the source enum `NQ_TYPE` has four concrete types. -/
def NQ_TYPE_PER_ENGINE : Nat := 4

/-- Modelled from the spec: bound on the per-core derived queue identity
`nq_id = nq_type * NQ_TYPE_PER_ENGINE + eng_index`, from the device
headers (`MAX_NQ_ENGINE * NQ_TYPE_PER_ENGINE = 16` slots per core). -/
def MAX_NQ_SUPPORTED : Nat := 16

/-- Modelled from the spec: number of semaphores per core, from the v1
device headers (valid indices are conventionally `< V1_SEMAPHORE_COUNT`). -/
def V1_SEMAPHORE_COUNT : Nat := 32

/-- Modelled from the spec: number of events per core, from the v1 device
headers (valid indices are conventionally `< V1_EVENTS_COUNT`). -/
def V1_EVENTS_COUNT : Nat := 256

/-- `#define NC_SEMAPHORE_SIZE 4` (src/neuron_core.c line 49). -/
def NC_SEMAPHORE_SIZE : Nat := 4

/-- `#define NC_EVENT_SIZE 4` (src/neuron_core.c line 50). -/
def NC_EVENT_SIZE : Nat := 4

/-- Linux `EINVAL` error code (the file returns `-EINVAL`). -/
def EINVAL : Int := 22

/-- Linux `ENOSPC` error code (fault-injection path of `nc_nq_mmap`). -/
def ENOSPC : Int := 28

/-- `NQ_TYPE_TRACE = 0` from the `enum NQ_TYPE` in src/neuron_core.c. -/
def NQ_TYPE_TRACE : Nat := 0

/-- `NQ_TYPE_NOTIFY = 1` from the `enum NQ_TYPE` in src/neuron_core.c. -/
def NQ_TYPE_NOTIFY : Nat := 1

/-- `NQ_TYPE_EVENT = 2` from the `enum NQ_TYPE` in src/neuron_core.c. -/
def NQ_TYPE_EVENT : Nat := 2

/-- `NQ_TYPE_ERROR = 3` from the `enum NQ_TYPE` in src/neuron_core.c. -/
def NQ_TYPE_ERROR : Nat := 3

/-- `NQ_TYPE_MAX = 4` from the `enum NQ_TYPE` in src/neuron_core.c. -/
def NQ_TYPE_MAX : Nat := 4

/-- `#define NC_NQ_MMAP_SIZE_PER_NQ (1 * 1024 * 1024 * 1024UL)` : 1 GiB
window per notification queue. -/
def NC_NQ_MMAP_SIZE_PER_NQ : Nat := 1 * 1024 * 1024 * 1024

/-- `NC_NQ_MMAP_SIZE_PER_NQ * NQ_TYPE_PER_ENGINE`. -/
def NC_NQ_MMAP_SIZE_PER_ENGINE : Nat := NC_NQ_MMAP_SIZE_PER_NQ * NQ_TYPE_PER_ENGINE

/-- `NC_NQ_MMAP_SIZE_PER_ENGINE * MAX_NQ_ENGINE`. -/
def NC_NQ_MMAP_SIZE_PER_NC : Nat := NC_NQ_MMAP_SIZE_PER_ENGINE * MAX_NQ_ENGINE

/-- `NC_NQ_MMAP_SIZE_PER_NC * V1_NC_PER_DEVICE`. -/
def NC_NQ_MMAP_SIZE_PER_ND : Nat := NC_NQ_MMAP_SIZE_PER_NC * V1_NC_PER_DEVICE

/-- `#define NC_NQ_MMAP_START_OFFSET (0)`. -/
def NC_NQ_MMAP_START_OFFSET : Nat := 0

/-- `NC_NQ_MMAP_START_OFFSET + NC_NQ_MMAP_SIZE_PER_ND`. -/
def NC_NQ_MMAP_END_OFFSET : Nat := NC_NQ_MMAP_START_OFFSET + NC_NQ_MMAP_SIZE_PER_ND

/-- Modelled from the spec: the register-layout constants consumed from
`v1/address_map.h` / `v1/putils.h` (not under `src/`) are kept abstract as
fields of this record; the claims hold for every instantiation.
`pu_relative_offset` stands for `pu_get_relative_offset(nc_id)` and
`PCIEX8_0_BASE` for the device-visible DMA aperture base. -/
structure address_map where
  MMAP_P_OFFSET : Nat
  MMAP_NC_SIZE : Nat
  MMAP_NC_SEMA_READ_OFFSET : Nat
  MMAP_NC_SEMA_SET_OFFSET : Nat
  MMAP_NC_SEMA_INCR_OFFSET : Nat
  MMAP_NC_SEMA_DECR_OFFSET : Nat
  MMAP_NC_EVENT_OFFSET : Nat
  pu_relative_offset : Nat → Nat
  PCIEX8_0_BASE : Nat

/-- `struct mem_chunk`: the fields of the external allocator's chunk that
src/neuron_core.c reads (`mc->pa`, `mc->size`). -/
structure mem_chunk where
  pa : Nat
  size : Nat
  deriving DecidableEq

/-- `struct neuron_device`: the fields src/neuron_core.c touches - the two
BAR base addresses and the per-device chunk-ownership table
`nd->nq_mc[nc_id][nq_id]` (modelled as a total function into `Option`). -/
structure neuron_device where
  bar0 : Nat
  bar2 : Nat
  nq_mc : Nat → Nat → Option mem_chunk

/-- `nc_get_axi_offset` (src/neuron_core.c lines 52-55). -/
def nc_get_axi_offset (am : address_map) (nc_index : Nat) : Nat :=
  am.MMAP_P_OFFSET + nc_index * am.MMAP_NC_SIZE

/-- `nc_get_semaphore_base` (src/neuron_core.c lines 57-60). -/
def nc_get_semaphore_base (am : address_map) (nd : neuron_device) (nc_id : Nat) : Nat :=
  nd.bar2 + nc_get_axi_offset am nc_id

/-- `nc_semaphore_read` (src/neuron_core.c lines 62-72).  On success the
observable is the register address handed to `fw_io_read_csr_array`. -/
def nc_semaphore_read (am : address_map) (nd : neuron_device)
    (nc_id semaphore_index : Nat) : Except Int Nat :=
  if V1_SEMAPHORE_COUNT < semaphore_index then .error (-EINVAL)
  else
    .ok (nc_get_semaphore_base am nd nc_id + am.MMAP_NC_SEMA_READ_OFFSET
      + semaphore_index * NC_SEMAPHORE_SIZE)

/-- `nc_semaphore_write` (src/neuron_core.c lines 74-85).  On success the
observable is the `(address, value)` pair handed to `writel`. -/
def nc_semaphore_write (am : address_map) (nd : neuron_device)
    (nc_id semaphore_index value : Nat) : Except Int (Nat × Nat) :=
  if V1_SEMAPHORE_COUNT < semaphore_index then .error (-EINVAL)
  else
    .ok (nc_get_semaphore_base am nd nc_id + am.MMAP_NC_SEMA_SET_OFFSET
      + semaphore_index * NC_SEMAPHORE_SIZE, value)

/-- `nc_semaphore_increment` (src/neuron_core.c lines 87-98). -/
def nc_semaphore_increment (am : address_map) (nd : neuron_device)
    (nc_id semaphore_index value : Nat) : Except Int (Nat × Nat) :=
  if V1_SEMAPHORE_COUNT < semaphore_index then .error (-EINVAL)
  else
    .ok (nc_get_semaphore_base am nd nc_id + am.MMAP_NC_SEMA_INCR_OFFSET
      + semaphore_index * NC_SEMAPHORE_SIZE, value)

/-- `nc_semaphore_decrement` (src/neuron_core.c lines 100-111). -/
def nc_semaphore_decrement (am : address_map) (nd : neuron_device)
    (nc_id semaphore_index value : Nat) : Except Int (Nat × Nat) :=
  if V1_SEMAPHORE_COUNT < semaphore_index then .error (-EINVAL)
  else
    .ok (nc_get_semaphore_base am nd nc_id + am.MMAP_NC_SEMA_DECR_OFFSET
      + semaphore_index * NC_SEMAPHORE_SIZE, value)

/-- `nc_get_event_addr` (src/neuron_core.c lines 113-117). -/
def nc_get_event_addr (am : address_map) (nd : neuron_device)
    (nc_id event_index : Nat) : Nat :=
  nd.bar2 + nc_get_axi_offset am nc_id + am.MMAP_NC_EVENT_OFFSET
    + event_index * NC_EVENT_SIZE

/-- `nc_event_get` (src/neuron_core.c lines 119-128). -/
def nc_event_get (am : address_map) (nd : neuron_device)
    (nc_id event_index : Nat) : Except Int Nat :=
  if V1_EVENTS_COUNT < event_index then .error (-EINVAL)
  else .ok (nc_get_event_addr am nd nc_id event_index)

/-- `nc_event_set` (src/neuron_core.c lines 130-140). -/
def nc_event_set (am : address_map) (nd : neuron_device)
    (nc_id event_index value : Nat) : Except Int (Nat × Nat) :=
  if V1_EVENTS_COUNT < event_index then .error (-EINVAL)
  else .ok (nc_get_event_addr am nd nc_id event_index, value)

/-- `nc_get_nq_mmap_offset` (src/neuron_core.c lines 167-182).  On success
the `u64 *offset` output is returned. -/
def nc_get_nq_mmap_offset (nc_id engine_index nq_type : Nat) : Except Int Nat :=
  if V1_NC_PER_DEVICE < nc_id then .error (-EINVAL)
  else if MAX_NQ_ENGINE < engine_index then .error (-EINVAL)
  else if NQ_TYPE_PER_ENGINE < nq_type then .error (-EINVAL)
  else
    .ok (NC_NQ_MMAP_START_OFFSET
      + nc_id * NC_NQ_MMAP_SIZE_PER_NC
      + engine_index * NC_NQ_MMAP_SIZE_PER_ENGINE
      + nq_type * NC_NQ_MMAP_SIZE_PER_NQ)

/-- `nc_get_nq_from_mmap_offset` (src/neuron_core.c lines 184-202).  On
success the `(nc_id, engine_index, nq_type)` outputs are returned. -/
def nc_get_nq_from_mmap_offset (offset : Nat) : Except Int (Nat × Nat × Nat) :=
  if offset < NC_NQ_MMAP_START_OFFSET then .error (-EINVAL)
  else if NC_NQ_MMAP_END_OFFSET ≤ offset then .error (-EINVAL)
  else
    let o1 := offset - NC_NQ_MMAP_START_OFFSET
    let nc_id := o1 / NC_NQ_MMAP_SIZE_PER_NC
    let o2 := o1 % NC_NQ_MMAP_SIZE_PER_NC
    let engine_index := o2 / NC_NQ_MMAP_SIZE_PER_ENGINE
    let o3 := o2 % NC_NQ_MMAP_SIZE_PER_ENGINE
    let nq_type := o3 / NC_NQ_MMAP_SIZE_PER_NQ
    .ok (nc_id, engine_index, nq_type)

/-- Observable side effects of the NQ lifecycle functions, in issue order.
`write_error_cfg b n v` records `pu_write_error_notification_cfg_<n>(b, v)`
(similarly for the event / explicit / implicit register triplets, the
latter two also carrying the `eng_index` and constant-0 arguments),
`msleep` the drain delay, `mc_alloc_call` an invocation of `mc_alloc`, and
`mc_free_call` an invocation of `mc_free`. -/
inductive effect where
  | write_error_cfg (apb_base n value : Nat)
  | write_event_cfg (apb_base n value : Nat)
  | write_expl_cfg (apb_base eng_index i n value : Nat)
  | write_impl_cfg (apb_base eng_index i n value : Nat)
  | msleep (ms : Nat)
  | mc_alloc_call (size : Nat)
  | mc_free_call
  deriving DecidableEq

/-- Whether an effect is an allocator invocation. -/
def effect.is_alloc : effect → Bool
  | .mc_alloc_call _ => true
  | _ => false

/-- Whether an effect is a notification-queue configuration-register
write (any of the four `pu_write_*_notification_cfg_<n>` families). -/
def effect.is_cfg_write : effect → Bool
  | .write_error_cfg _ _ _ => true
  | .write_event_cfg _ _ _ => true
  | .write_expl_cfg _ _ _ _ _ => true
  | .write_impl_cfg _ _ _ _ _ => true
  | _ => false

/-- The register number `n` of a configuration write (`cfg_0`/`cfg_1`
carry the queue address low/high halves, `cfg_2` the size; this is how
`nc_nq_init` uses them). -/
def effect.cfg_index : effect → Option Nat
  | .write_error_cfg _ n _ => some n
  | .write_event_cfg _ n _ => some n
  | .write_expl_cfg _ _ _ n _ => some n
  | .write_impl_cfg _ _ _ n _ => some n
  | _ => none

/-- The value written by a configuration write. -/
def effect.cfg_value : effect → Option Nat
  | .write_error_cfg _ _ v => some v
  | .write_event_cfg _ _ v => some v
  | .write_expl_cfg _ _ _ _ v => some v
  | .write_impl_cfg _ _ _ _ v => some v
  | _ => none

/-- Store `mc` into the ownership slot `nd->nq_mc[nc_id][nq_id]`. -/
def set_nq_mc (nd : neuron_device) (nc_id nq_id : Nat) (mc : Option mem_chunk) :
    neuron_device :=
  neuron_device.mk nd.bar0 nd.bar2
    (fun c q => if c = nc_id ∧ q = nq_id then mc else nd.nq_mc c q)

/-- Result of an NQ lifecycle call: the C return code, the device (the
input pointer, with the ownership table possibly updated), and the trace
of issued side effects. -/
structure nq_result where
  ret : Int
  nd : Option neuron_device
  trace : List effect

/-- The register-programming tail of `nc_nq_init` (src/neuron_core.c lines
228-258): compute `apb_base` and the chunk's device-visible address, split
it into 32-bit halves, and `switch (nq_type)` over the four register
triplets; an unrecognized type returns `-1`. -/
def nc_nq_program (am : address_map) (nd : neuron_device) (mc : mem_chunk)
    (nc_id eng_index nq_type size : Nat) (tr : List effect) : nq_result :=
  let apb_base := nd.bar0 + am.pu_relative_offset nc_id
  let queue_pa := Nat.lor mc.pa am.PCIEX8_0_BASE
  let low := queue_pa % 2 ^ 32
  let high := queue_pa / 2 ^ 32 % 2 ^ 32
  if nq_type = NQ_TYPE_ERROR then
    ⟨0, some nd, tr ++ [.write_error_cfg apb_base 0 low,
      .write_error_cfg apb_base 1 high, .write_error_cfg apb_base 2 size]⟩
  else if nq_type = NQ_TYPE_EVENT then
    ⟨0, some nd, tr ++ [.write_event_cfg apb_base 0 low,
      .write_event_cfg apb_base 1 high, .write_event_cfg apb_base 2 size]⟩
  else if nq_type = NQ_TYPE_NOTIFY then
    ⟨0, some nd, tr ++ [.write_expl_cfg apb_base eng_index 0 0 low,
      .write_expl_cfg apb_base eng_index 0 1 high,
      .write_expl_cfg apb_base eng_index 0 2 size]⟩
  else if nq_type = NQ_TYPE_TRACE then
    ⟨0, some nd, tr ++ [.write_impl_cfg apb_base eng_index 0 0 low,
      .write_impl_cfg apb_base eng_index 0 1 high,
      .write_impl_cfg apb_base eng_index 0 2 size]⟩
  else ⟨-1, some nd, tr⟩

/-- `nc_nq_init` (src/neuron_core.c lines 204-259).  `alloc` is the result
`mc_alloc` would produce if invoked (the allocator is an external
collaborator; a nonzero `Except.error` code models its failure return).
`nq_id` is a `u8` in C, hence the `% 256`.  If the slot already holds a
chunk the allocator is not consulted; otherwise `mc_alloc` is invoked and
on success the chunk is stored in the slot.  Register programming is the
`nc_nq_program` tail above. -/
def nc_nq_init (am : address_map) (alloc : Except Int mem_chunk)
    (nd0 : Option neuron_device) (nc_id eng_index nq_type size : Nat) : nq_result :=
  match nd0 with
  | none => ⟨-EINVAL, none, []⟩
  | some nd =>
    if V1_NC_PER_DEVICE ≤ nc_id then ⟨-EINVAL, some nd, []⟩
    else if MAX_NQ_SUPPORTED ≤ (nq_type * NQ_TYPE_PER_ENGINE + eng_index) % 256 then
      ⟨-EINVAL, some nd, []⟩
    else
      match nd.nq_mc nc_id ((nq_type * NQ_TYPE_PER_ENGINE + eng_index) % 256) with
      | some mc => nc_nq_program am nd mc nc_id eng_index nq_type size []
      | none =>
        match alloc with
        | .error e => ⟨e, some nd, [.mc_alloc_call size]⟩
        | .ok mc =>
          nc_nq_program am
            (set_nq_mc nd nc_id ((nq_type * NQ_TYPE_PER_ENGINE + eng_index) % 256) (some mc))
            mc nc_id eng_index nq_type size [.mc_alloc_call size]

/-- `nc_nq_destroy` (src/neuron_core.c lines 261-311).  The source repeats
the `nd`/`nc_id`/`nq_id` bounds checks twice verbatim (lines 266-274);
the repetition is semantically void and is collapsed here.  If the slot is
empty the function returns 0 with no effects; otherwise it clears the
three configuration registers (size register `cfg_2` first, then the two
address registers `cfg_0`, `cfg_1`), sleeps 1 ms so the hardware can
drain, and only then frees the chunk and clears the slot. -/
def nc_nq_destroy (am : address_map) (nd0 : Option neuron_device)
    (nc_id eng_index nq_type : Nat) : nq_result :=
  match nd0 with
  | none => ⟨-EINVAL, none, []⟩
  | some nd =>
    if V1_NC_PER_DEVICE ≤ nc_id then ⟨-EINVAL, some nd, []⟩
    else if MAX_NQ_SUPPORTED ≤ (nq_type * NQ_TYPE_PER_ENGINE + eng_index) % 256 then
      ⟨-EINVAL, some nd, []⟩
    else
      match nd.nq_mc nc_id ((nq_type * NQ_TYPE_PER_ENGINE + eng_index) % 256) with
      | none => ⟨0, some nd, []⟩
      | some _ =>
        if nq_type = NQ_TYPE_ERROR then
          ⟨0, some (set_nq_mc nd nc_id ((nq_type * NQ_TYPE_PER_ENGINE + eng_index) % 256) none),
            [.write_error_cfg (nd.bar0 + am.pu_relative_offset nc_id) 2 0,
             .write_error_cfg (nd.bar0 + am.pu_relative_offset nc_id) 0 0,
             .write_error_cfg (nd.bar0 + am.pu_relative_offset nc_id) 1 0,
             .msleep 1, .mc_free_call]⟩
        else if nq_type = NQ_TYPE_EVENT then
          ⟨0, some (set_nq_mc nd nc_id ((nq_type * NQ_TYPE_PER_ENGINE + eng_index) % 256) none),
            [.write_event_cfg (nd.bar0 + am.pu_relative_offset nc_id) 2 0,
             .write_event_cfg (nd.bar0 + am.pu_relative_offset nc_id) 0 0,
             .write_event_cfg (nd.bar0 + am.pu_relative_offset nc_id) 1 0,
             .msleep 1, .mc_free_call]⟩
        else if nq_type = NQ_TYPE_NOTIFY then
          ⟨0, some (set_nq_mc nd nc_id ((nq_type * NQ_TYPE_PER_ENGINE + eng_index) % 256) none),
            [.write_expl_cfg (nd.bar0 + am.pu_relative_offset nc_id) eng_index 0 2 0,
             .write_expl_cfg (nd.bar0 + am.pu_relative_offset nc_id) eng_index 0 0 0,
             .write_expl_cfg (nd.bar0 + am.pu_relative_offset nc_id) eng_index 0 1 0,
             .msleep 1, .mc_free_call]⟩
        else if nq_type = NQ_TYPE_TRACE then
          ⟨0, some (set_nq_mc nd nc_id ((nq_type * NQ_TYPE_PER_ENGINE + eng_index) % 256) none),
            [.write_impl_cfg (nd.bar0 + am.pu_relative_offset nc_id) eng_index 0 2 0,
             .write_impl_cfg (nd.bar0 + am.pu_relative_offset nc_id) eng_index 0 0 0,
             .write_impl_cfg (nd.bar0 + am.pu_relative_offset nc_id) eng_index 0 1 0,
             .msleep 1, .mc_free_call]⟩
        else ⟨-1, some nd, []⟩

/-- Kernel `PAGE_SHIFT` on the supported platforms (4 KiB pages); used by
the kernel macro `PHYS_PFN`. -/
def PAGE_SHIFT : Nat := 12

/-- Kernel macro `PHYS_PFN(pa) = pa >> PAGE_SHIFT`. -/
def PHYS_PFN (pa : Nat) : Nat := pa / 2 ^ PAGE_SHIFT

/-- `struct vm_area_struct`: the fields src/neuron_core.c touches. -/
structure vm_area_struct where
  vm_start : Nat
  vm_flags : Nat
  deriving DecidableEq

/-- Kernel flag `VM_DONTCOPY`. -/
def VM_DONTCOPY : Nat := 0x00020000

/-- Kernel flag `VM_DONTEXPAND`. -/
def VM_DONTEXPAND : Nat := 0x00040000

/-- Kernel flag `VM_DONTDUMP`. -/
def VM_DONTDUMP : Nat := 0x04000000

/-- The flag set `VM_DONTEXPAND | VM_DONTDUMP | VM_DONTCOPY` or-ed into
`vma->vm_flags` by a successful `nc_nq_mmap`. -/
def VM_NQ_FLAGS : Nat := Nat.lor VM_DONTEXPAND (Nat.lor VM_DONTDUMP VM_DONTCOPY)

/-- Result of `nc_nq_mmap`: the C return code, the established mapping (as
the `(PHYS_PFN(mc->pa), mc->size)` pair handed to `remap_pfn_range`, when
it succeeded), and the possibly-updated `vma`. -/
structure mmap_result where
  ret : Int
  mapped : Option (Nat × Nat)
  vma : vm_area_struct
  deriving DecidableEq

/-- `nc_nq_mmap` (src/neuron_core.c lines 328-357).  `should_fail_mmap`
models the `CONFIG_FAULT_INJECTION` hook; `remap_ret` the return code of
`remap_pfn_range` (0 on success).  The function requires a configured
chunk for the truncated `u8` queue identity, maps the chunk's physical
range of length `mc->size`, and marks the vma non-expandable,
non-dumpable, non-copyable. -/
def nc_nq_mmap (should_fail_mmap : Bool) (remap_ret : Int)
    (nd0 : Option neuron_device) (nc_id eng_index nq_type : Nat)
    (vma : vm_area_struct) : mmap_result :=
  match nd0 with
  | none => ⟨-EINVAL, none, vma⟩
  | some nd =>
    if V1_NC_PER_DEVICE ≤ nc_id then ⟨-EINVAL, none, vma⟩
    else if MAX_NQ_SUPPORTED ≤ (nq_type * NQ_TYPE_PER_ENGINE + eng_index) % 256 then
      ⟨-EINVAL, none, vma⟩
    else
      match nd.nq_mc nc_id ((nq_type * NQ_TYPE_PER_ENGINE + eng_index) % 256) with
      | none => ⟨-EINVAL, none, vma⟩
      | some mc =>
        if should_fail_mmap then ⟨-ENOSPC, none, vma⟩
        else if remap_ret ≠ 0 then ⟨remap_ret, none, vma⟩
        else ⟨0, some (PHYS_PFN mc.pa, mc.size),
          vm_area_struct.mk vma.vm_start (Nat.lor vma.vm_flags VM_NQ_FLAGS)⟩

/-- A concrete address map used by witnesses and counterexamples; field
values are arbitrary (chosen distinct so that computed addresses are
visibly functions of their inputs). -/
def am0 : address_map :=
  address_map.mk 16 8 1 2 3 5 7 (fun nc => 100 * nc) 4096

/-- A concrete device with an empty ownership table. -/
def nd0 : neuron_device :=
  neuron_device.mk 0 0 (fun _ _ => none)

/-- A concrete device whose slot `[1][14]` (nc 1, nq_type 3, eng 2) holds
a chunk. -/
def nd1 : neuron_device :=
  neuron_device.mk 0 0 (fun c q => if c = 1 ∧ q = 14 then some (mem_chunk.mk 8192 64) else none)

theorem per_nq_eq : NC_NQ_MMAP_SIZE_PER_NQ = 1073741824 := by decide

theorem per_engine_eq : NC_NQ_MMAP_SIZE_PER_ENGINE = 4294967296 := by decide

theorem per_nc_eq : NC_NQ_MMAP_SIZE_PER_NC = 17179869184 := by decide

theorem end_offset_eq : NC_NQ_MMAP_END_OFFSET = 68719476736 := by decide

theorem set_nq_mc_get_same (nd : neuron_device) (c q : Nat) (mc : Option mem_chunk) :
    (set_nq_mc nd c q mc).nq_mc c q = mc := by
  simp [set_nq_mc]

theorem neg_EINVAL_ne_zero : -EINVAL ≠ 0 := by decide

theorem neg_one_ne_zero_int : (-1 : Int) ≠ 0 := by decide

theorem neg_one_ne_neg_EINVAL : (-1 : Int) ≠ -EINVAL := by decide

theorem zero_ne_neg_EINVAL : (0 : Int) ≠ -EINVAL := by decide

theorem nc_nq_program_trace_eq (am : address_map) (nd : neuron_device) (mc : mem_chunk)
    (nc_id eng_index size : Nat) (tr : List effect) :
    nc_nq_program am nd mc nc_id eng_index 0 size tr =
      ⟨0, some nd, tr ++
        [.write_impl_cfg (nd.bar0 + am.pu_relative_offset nc_id) eng_index 0 0
          (Nat.lor mc.pa am.PCIEX8_0_BASE % 2 ^ 32),
         .write_impl_cfg (nd.bar0 + am.pu_relative_offset nc_id) eng_index 0 1
          (Nat.lor mc.pa am.PCIEX8_0_BASE / 2 ^ 32 % 2 ^ 32),
         .write_impl_cfg (nd.bar0 + am.pu_relative_offset nc_id) eng_index 0 2 size]⟩ := rfl

theorem nc_nq_program_notify_eq (am : address_map) (nd : neuron_device) (mc : mem_chunk)
    (nc_id eng_index size : Nat) (tr : List effect) :
    nc_nq_program am nd mc nc_id eng_index 1 size tr =
      ⟨0, some nd, tr ++
        [.write_expl_cfg (nd.bar0 + am.pu_relative_offset nc_id) eng_index 0 0
          (Nat.lor mc.pa am.PCIEX8_0_BASE % 2 ^ 32),
         .write_expl_cfg (nd.bar0 + am.pu_relative_offset nc_id) eng_index 0 1
          (Nat.lor mc.pa am.PCIEX8_0_BASE / 2 ^ 32 % 2 ^ 32),
         .write_expl_cfg (nd.bar0 + am.pu_relative_offset nc_id) eng_index 0 2 size]⟩ := rfl

theorem nc_nq_program_event_eq (am : address_map) (nd : neuron_device) (mc : mem_chunk)
    (nc_id eng_index size : Nat) (tr : List effect) :
    nc_nq_program am nd mc nc_id eng_index 2 size tr =
      ⟨0, some nd, tr ++
        [.write_event_cfg (nd.bar0 + am.pu_relative_offset nc_id) 0
          (Nat.lor mc.pa am.PCIEX8_0_BASE % 2 ^ 32),
         .write_event_cfg (nd.bar0 + am.pu_relative_offset nc_id) 1
          (Nat.lor mc.pa am.PCIEX8_0_BASE / 2 ^ 32 % 2 ^ 32),
         .write_event_cfg (nd.bar0 + am.pu_relative_offset nc_id) 2 size]⟩ := rfl

theorem nc_nq_program_error_eq (am : address_map) (nd : neuron_device) (mc : mem_chunk)
    (nc_id eng_index size : Nat) (tr : List effect) :
    nc_nq_program am nd mc nc_id eng_index 3 size tr =
      ⟨0, some nd, tr ++
        [.write_error_cfg (nd.bar0 + am.pu_relative_offset nc_id) 0
          (Nat.lor mc.pa am.PCIEX8_0_BASE % 2 ^ 32),
         .write_error_cfg (nd.bar0 + am.pu_relative_offset nc_id) 1
          (Nat.lor mc.pa am.PCIEX8_0_BASE / 2 ^ 32 % 2 ^ 32),
         .write_error_cfg (nd.bar0 + am.pu_relative_offset nc_id) 2 size]⟩ := rfl

theorem nc_nq_program_default_eq (am : address_map) (nd : neuron_device) (mc : mem_chunk)
    (nc_id eng_index nq_type size : Nat) (tr : List effect) (ht : NQ_TYPE_MAX ≤ nq_type) :
    nc_nq_program am nd mc nc_id eng_index nq_type size tr = ⟨-1, some nd, tr⟩ := by
  have h4 : 4 ≤ nq_type := ht
  unfold nc_nq_program
  rw [if_neg (by simp only [NQ_TYPE_ERROR]; omega),
    if_neg (by simp only [NQ_TYPE_EVENT]; omega),
    if_neg (by simp only [NQ_TYPE_NOTIFY]; omega),
    if_neg (by simp only [NQ_TYPE_TRACE]; omega)]

theorem nc_nq_program_nd_eq (am : address_map) (nd : neuron_device) (mc : mem_chunk)
    (nc_id eng_index nq_type size : Nat) (tr : List effect) :
    (nc_nq_program am nd mc nc_id eng_index nq_type size tr).nd = some nd := by
  unfold nc_nq_program
  split_ifs <;> rfl

theorem nc_nq_init_full_eq (am : address_map) (alloc : Except Int mem_chunk)
    (nd : neuron_device) (nc_id eng_index nq_type size : Nat) (mc : mem_chunk)
    (hnc : nc_id < V1_NC_PER_DEVICE)
    (hq : (nq_type * NQ_TYPE_PER_ENGINE + eng_index) % 256 < MAX_NQ_SUPPORTED)
    (hslot : nd.nq_mc nc_id ((nq_type * NQ_TYPE_PER_ENGINE + eng_index) % 256) = some mc) :
    nc_nq_init am alloc (some nd) nc_id eng_index nq_type size =
      nc_nq_program am nd mc nc_id eng_index nq_type size [] := by
  simp only [nc_nq_init]
  rw [if_neg (Nat.not_le.mpr hnc), if_neg (Nat.not_le.mpr hq), hslot]

theorem nc_nq_init_empty_ok_eq (am : address_map) (mc : mem_chunk)
    (nd : neuron_device) (nc_id eng_index nq_type size : Nat)
    (hnc : nc_id < V1_NC_PER_DEVICE)
    (hq : (nq_type * NQ_TYPE_PER_ENGINE + eng_index) % 256 < MAX_NQ_SUPPORTED)
    (hslot : nd.nq_mc nc_id ((nq_type * NQ_TYPE_PER_ENGINE + eng_index) % 256) = none) :
    nc_nq_init am (Except.ok mc) (some nd) nc_id eng_index nq_type size =
      nc_nq_program am
        (set_nq_mc nd nc_id ((nq_type * NQ_TYPE_PER_ENGINE + eng_index) % 256) (some mc))
        mc nc_id eng_index nq_type size [.mc_alloc_call size] := by
  simp only [nc_nq_init]
  rw [if_neg (Nat.not_le.mpr hnc), if_neg (Nat.not_le.mpr hq), hslot]

theorem nc_nq_init_empty_err_eq (am : address_map) (e : Int)
    (nd : neuron_device) (nc_id eng_index nq_type size : Nat)
    (hnc : nc_id < V1_NC_PER_DEVICE)
    (hq : (nq_type * NQ_TYPE_PER_ENGINE + eng_index) % 256 < MAX_NQ_SUPPORTED)
    (hslot : nd.nq_mc nc_id ((nq_type * NQ_TYPE_PER_ENGINE + eng_index) % 256) = none) :
    nc_nq_init am (Except.error e) (some nd) nc_id eng_index nq_type size =
      ⟨e, some nd, [.mc_alloc_call size]⟩ := by
  simp only [nc_nq_init]
  rw [if_neg (Nat.not_le.mpr hnc), if_neg (Nat.not_le.mpr hq), hslot]

theorem nc_nq_destroy_empty_eq (am : address_map) (nd : neuron_device)
    (nc_id eng_index nq_type : Nat) (hnc : nc_id < V1_NC_PER_DEVICE)
    (hq : (nq_type * NQ_TYPE_PER_ENGINE + eng_index) % 256 < MAX_NQ_SUPPORTED)
    (hslot : nd.nq_mc nc_id ((nq_type * NQ_TYPE_PER_ENGINE + eng_index) % 256) = none) :
    nc_nq_destroy am (some nd) nc_id eng_index nq_type = ⟨0, some nd, []⟩ := by
  simp only [nc_nq_destroy]
  rw [if_neg (Nat.not_le.mpr hnc), if_neg (Nat.not_le.mpr hq), hslot]

theorem nc_nq_program_ret_of_lt (am : address_map) (nd : neuron_device) (mc : mem_chunk)
    (nc_id eng_index nq_type size : Nat) (tr : List effect) (ht : nq_type < NQ_TYPE_MAX) :
    (nc_nq_program am nd mc nc_id eng_index nq_type size tr).ret = 0 := by
  have ht4 : nq_type < 4 := ht
  interval_cases nq_type <;>
    simp [nc_nq_program_trace_eq, nc_nq_program_notify_eq, nc_nq_program_event_eq,
      nc_nq_program_error_eq]

theorem nc_nq_program_ret_cases (am : address_map) (nd : neuron_device) (mc : mem_chunk)
    (nc_id eng_index nq_type size : Nat) (tr : List effect) :
    (nc_nq_program am nd mc nc_id eng_index nq_type size tr).ret = 0 ∨
      (nc_nq_program am nd mc nc_id eng_index nq_type size tr).ret = -1 := by
  unfold nc_nq_program
  split_ifs <;> simp

theorem nc_nq_program_slot_preserved (am : address_map) (nd : neuron_device) (mc : mem_chunk)
    (nc_id eng_index nq_type size : Nat) (tr : List effect) :
    ∃ nd', (nc_nq_program am nd mc nc_id eng_index nq_type size tr).nd = some nd' ∧
      nd' = nd := by
  unfold nc_nq_program
  split_ifs <;> exact ⟨nd, rfl, rfl⟩

theorem nc_nq_init_nc_oob_eq (am : address_map) (alloc : Except Int mem_chunk)
    (nd : neuron_device) (nc_id eng_index nq_type size : Nat)
    (hnc : V1_NC_PER_DEVICE ≤ nc_id) :
    nc_nq_init am alloc (some nd) nc_id eng_index nq_type size =
      ⟨-EINVAL, some nd, []⟩ := by
  simp only [nc_nq_init]
  rw [if_pos hnc]

theorem nc_nq_init_q_oob_eq (am : address_map) (alloc : Except Int mem_chunk)
    (nd : neuron_device) (nc_id eng_index nq_type size : Nat)
    (hnc : nc_id < V1_NC_PER_DEVICE)
    (hq : MAX_NQ_SUPPORTED ≤ (nq_type * NQ_TYPE_PER_ENGINE + eng_index) % 256) :
    nc_nq_init am alloc (some nd) nc_id eng_index nq_type size =
      ⟨-EINVAL, some nd, []⟩ := by
  simp only [nc_nq_init]
  rw [if_neg (Nat.not_le.mpr hnc), if_pos hq]

theorem nc_nq_init_ret_zero_slot (am : address_map) (alloc : Except Int mem_chunk)
    (nd : neuron_device) (nc_id eng_index nq_type size : Nat)
    (halloc : ∀ e : Int, alloc = Except.error e → e ≠ 0)
    (h : (nc_nq_init am alloc (some nd) nc_id eng_index nq_type size).ret = 0) :
    ∃ nd' mc,
      (nc_nq_init am alloc (some nd) nc_id eng_index nq_type size).nd = some nd' ∧
      nd'.nq_mc nc_id ((nq_type * NQ_TYPE_PER_ENGINE + eng_index) % 256) = some mc := by
  rcases Nat.lt_or_ge nc_id V1_NC_PER_DEVICE with hnc | hnc
  · rcases Nat.lt_or_ge ((nq_type * NQ_TYPE_PER_ENGINE + eng_index) % 256)
      MAX_NQ_SUPPORTED with hq | hq
    · rcases hmc : nd.nq_mc nc_id ((nq_type * NQ_TYPE_PER_ENGINE + eng_index) % 256)
        with _ | mc
      · cases halt : alloc with
        | error e =>
          rw [halt, nc_nq_init_empty_err_eq am e nd nc_id eng_index nq_type size hnc hq hmc]
            at h
          exact absurd h (halloc e halt)
        | ok mc' =>
          rw [nc_nq_init_empty_ok_eq am mc' nd nc_id eng_index nq_type size hnc hq hmc]
          obtain ⟨nd', hnd', hrefl⟩ := nc_nq_program_slot_preserved am
            (set_nq_mc nd nc_id ((nq_type * NQ_TYPE_PER_ENGINE + eng_index) % 256) (some mc'))
            mc' nc_id eng_index nq_type size [effect.mc_alloc_call size]
          refine ⟨nd', mc', hnd', ?_⟩
          rw [hrefl]
          exact set_nq_mc_get_same nd nc_id
            ((nq_type * NQ_TYPE_PER_ENGINE + eng_index) % 256) (some mc')
      · rw [nc_nq_init_full_eq am alloc nd nc_id eng_index nq_type size mc hnc hq hmc]
        obtain ⟨nd', hnd', hrefl⟩ := nc_nq_program_slot_preserved am nd mc
          nc_id eng_index nq_type size []
        refine ⟨nd', mc, hnd', ?_⟩
        rw [hrefl]
        exact hmc
    · rw [nc_nq_init_q_oob_eq am alloc nd nc_id eng_index nq_type size hnc hq] at h
      exact absurd h neg_EINVAL_ne_zero
  · rw [nc_nq_init_nc_oob_eq am alloc nd nc_id eng_index nq_type size hnc] at h
    exact absurd h neg_EINVAL_ne_zero

theorem nc_nq_destroy_nc_oob_eq (am : address_map) (nd : neuron_device)
    (nc_id eng_index nq_type : Nat) (hnc : V1_NC_PER_DEVICE ≤ nc_id) :
    nc_nq_destroy am (some nd) nc_id eng_index nq_type = ⟨-EINVAL, some nd, []⟩ := by
  simp only [nc_nq_destroy]
  rw [if_pos hnc]

theorem nc_nq_destroy_q_oob_eq (am : address_map) (nd : neuron_device)
    (nc_id eng_index nq_type : Nat) (hnc : nc_id < V1_NC_PER_DEVICE)
    (hq : MAX_NQ_SUPPORTED ≤ (nq_type * NQ_TYPE_PER_ENGINE + eng_index) % 256) :
    nc_nq_destroy am (some nd) nc_id eng_index nq_type = ⟨-EINVAL, some nd, []⟩ := by
  simp only [nc_nq_destroy]
  rw [if_neg (Nat.not_le.mpr hnc), if_pos hq]

theorem nc_nq_destroy_cleared_trace_eq (am : address_map) (nd : neuron_device)
    (mc : mem_chunk) (nc_id eng_index : Nat) (hnc : nc_id < V1_NC_PER_DEVICE)
    (hq : (0 * NQ_TYPE_PER_ENGINE + eng_index) % 256 < MAX_NQ_SUPPORTED)
    (hslot : nd.nq_mc nc_id ((0 * NQ_TYPE_PER_ENGINE + eng_index) % 256) = some mc) :
    nc_nq_destroy am (some nd) nc_id eng_index 0 =
      ⟨0, some (set_nq_mc nd nc_id ((0 * NQ_TYPE_PER_ENGINE + eng_index) % 256) none),
       [.write_impl_cfg (nd.bar0 + am.pu_relative_offset nc_id) eng_index 0 2 0,
        .write_impl_cfg (nd.bar0 + am.pu_relative_offset nc_id) eng_index 0 0 0,
        .write_impl_cfg (nd.bar0 + am.pu_relative_offset nc_id) eng_index 0 1 0,
        .msleep 1, .mc_free_call]⟩ := by
  simp only [nc_nq_destroy]
  rw [if_neg (Nat.not_le.mpr hnc), if_neg (Nat.not_le.mpr hq), hslot]
  rfl

theorem nc_nq_destroy_cleared_notify_eq (am : address_map) (nd : neuron_device)
    (mc : mem_chunk) (nc_id eng_index : Nat) (hnc : nc_id < V1_NC_PER_DEVICE)
    (hq : (1 * NQ_TYPE_PER_ENGINE + eng_index) % 256 < MAX_NQ_SUPPORTED)
    (hslot : nd.nq_mc nc_id ((1 * NQ_TYPE_PER_ENGINE + eng_index) % 256) = some mc) :
    nc_nq_destroy am (some nd) nc_id eng_index 1 =
      ⟨0, some (set_nq_mc nd nc_id ((1 * NQ_TYPE_PER_ENGINE + eng_index) % 256) none),
       [.write_expl_cfg (nd.bar0 + am.pu_relative_offset nc_id) eng_index 0 2 0,
        .write_expl_cfg (nd.bar0 + am.pu_relative_offset nc_id) eng_index 0 0 0,
        .write_expl_cfg (nd.bar0 + am.pu_relative_offset nc_id) eng_index 0 1 0,
        .msleep 1, .mc_free_call]⟩ := by
  simp only [nc_nq_destroy]
  rw [if_neg (Nat.not_le.mpr hnc), if_neg (Nat.not_le.mpr hq), hslot]
  rfl

theorem nc_nq_destroy_cleared_event_eq (am : address_map) (nd : neuron_device)
    (mc : mem_chunk) (nc_id eng_index : Nat) (hnc : nc_id < V1_NC_PER_DEVICE)
    (hq : (2 * NQ_TYPE_PER_ENGINE + eng_index) % 256 < MAX_NQ_SUPPORTED)
    (hslot : nd.nq_mc nc_id ((2 * NQ_TYPE_PER_ENGINE + eng_index) % 256) = some mc) :
    nc_nq_destroy am (some nd) nc_id eng_index 2 =
      ⟨0, some (set_nq_mc nd nc_id ((2 * NQ_TYPE_PER_ENGINE + eng_index) % 256) none),
       [.write_event_cfg (nd.bar0 + am.pu_relative_offset nc_id) 2 0,
        .write_event_cfg (nd.bar0 + am.pu_relative_offset nc_id) 0 0,
        .write_event_cfg (nd.bar0 + am.pu_relative_offset nc_id) 1 0,
        .msleep 1, .mc_free_call]⟩ := by
  simp only [nc_nq_destroy]
  rw [if_neg (Nat.not_le.mpr hnc), if_neg (Nat.not_le.mpr hq), hslot]
  rfl

theorem nc_nq_destroy_cleared_error_eq (am : address_map) (nd : neuron_device)
    (mc : mem_chunk) (nc_id eng_index : Nat) (hnc : nc_id < V1_NC_PER_DEVICE)
    (hq : (3 * NQ_TYPE_PER_ENGINE + eng_index) % 256 < MAX_NQ_SUPPORTED)
    (hslot : nd.nq_mc nc_id ((3 * NQ_TYPE_PER_ENGINE + eng_index) % 256) = some mc) :
    nc_nq_destroy am (some nd) nc_id eng_index 3 =
      ⟨0, some (set_nq_mc nd nc_id ((3 * NQ_TYPE_PER_ENGINE + eng_index) % 256) none),
       [.write_error_cfg (nd.bar0 + am.pu_relative_offset nc_id) 2 0,
        .write_error_cfg (nd.bar0 + am.pu_relative_offset nc_id) 0 0,
        .write_error_cfg (nd.bar0 + am.pu_relative_offset nc_id) 1 0,
        .msleep 1, .mc_free_call]⟩ := by
  simp only [nc_nq_destroy]
  rw [if_neg (Nat.not_le.mpr hnc), if_neg (Nat.not_le.mpr hq), hslot]
  rfl

theorem nc_nq_destroy_full_eq (am : address_map) (nd : neuron_device) (mc : mem_chunk)
    (nc_id eng_index nq_type : Nat) (hnc : nc_id < V1_NC_PER_DEVICE)
    (hq : (nq_type * NQ_TYPE_PER_ENGINE + eng_index) % 256 < MAX_NQ_SUPPORTED)
    (ht : nq_type < NQ_TYPE_MAX)
    (hslot : nd.nq_mc nc_id ((nq_type * NQ_TYPE_PER_ENGINE + eng_index) % 256) = some mc) :
    ∃ ws : List effect,
      nc_nq_destroy am (some nd) nc_id eng_index nq_type =
        ⟨0, some (set_nq_mc nd nc_id ((nq_type * NQ_TYPE_PER_ENGINE + eng_index) % 256) none),
         ws⟩ ∧
      ws.filterMap effect.cfg_index = [2, 0, 1] ∧
      ws.filterMap effect.cfg_value = [0, 0, 0] ∧
      ∃ e2 e0 e1, ws = [e2, e0, e1, effect.msleep 1, effect.mc_free_call] := by
  have ht4 : nq_type < 4 := ht
  interval_cases nq_type
  · exact ⟨_, nc_nq_destroy_cleared_trace_eq am nd mc nc_id eng_index hnc hq hslot,
      by simp [effect.cfg_index], by simp [effect.cfg_value], _, _, _, rfl⟩
  · exact ⟨_, nc_nq_destroy_cleared_notify_eq am nd mc nc_id eng_index hnc hq hslot,
      by simp [effect.cfg_index], by simp [effect.cfg_value], _, _, _, rfl⟩
  · exact ⟨_, nc_nq_destroy_cleared_event_eq am nd mc nc_id eng_index hnc hq hslot,
      by simp [effect.cfg_index], by simp [effect.cfg_value], _, _, _, rfl⟩
  · exact ⟨_, nc_nq_destroy_cleared_error_eq am nd mc nc_id eng_index hnc hq hslot,
      by simp [effect.cfg_index], by simp [effect.cfg_value], _, _, _, rfl⟩

theorem nc_nq_destroy_full_default_eq (am : address_map) (nd : neuron_device)
    (mc : mem_chunk) (nc_id eng_index nq_type : Nat) (hnc : nc_id < V1_NC_PER_DEVICE)
    (hq : (nq_type * NQ_TYPE_PER_ENGINE + eng_index) % 256 < MAX_NQ_SUPPORTED)
    (ht : NQ_TYPE_MAX ≤ nq_type)
    (hslot : nd.nq_mc nc_id ((nq_type * NQ_TYPE_PER_ENGINE + eng_index) % 256) = some mc) :
    nc_nq_destroy am (some nd) nc_id eng_index nq_type = ⟨-1, some nd, []⟩ := by
  have h4 : 4 ≤ nq_type := ht
  simp only [nc_nq_destroy]
  rw [if_neg (Nat.not_le.mpr hnc), if_neg (Nat.not_le.mpr hq), hslot,
    if_neg (by simp only [NQ_TYPE_ERROR]; omega),
    if_neg (by simp only [NQ_TYPE_EVENT]; omega),
    if_neg (by simp only [NQ_TYPE_NOTIFY]; omega),
    if_neg (by simp only [NQ_TYPE_TRACE]; omega)]

theorem nc_nq_destroy_ret_zero_slot (am : address_map) (nd : neuron_device)
    (nc_id eng_index nq_type : Nat) (hnc : nc_id < V1_NC_PER_DEVICE)
    (hq : (nq_type * NQ_TYPE_PER_ENGINE + eng_index) % 256 < MAX_NQ_SUPPORTED)
    (h : (nc_nq_destroy am (some nd) nc_id eng_index nq_type).ret = 0) :
    ∃ nd', (nc_nq_destroy am (some nd) nc_id eng_index nq_type).nd = some nd' ∧
      nd'.nq_mc nc_id ((nq_type * NQ_TYPE_PER_ENGINE + eng_index) % 256) = none := by
  rcases hmc : nd.nq_mc nc_id ((nq_type * NQ_TYPE_PER_ENGINE + eng_index) % 256)
    with _ | mc
  · rw [nc_nq_destroy_empty_eq am nd nc_id eng_index nq_type hnc hq hmc]
    exact ⟨nd, rfl, hmc⟩
  · rcases Nat.lt_or_ge nq_type NQ_TYPE_MAX with ht | ht
    · obtain ⟨ws, heq, _, _, _⟩ := nc_nq_destroy_full_eq am nd mc nc_id eng_index
        nq_type hnc hq ht hmc
      rw [heq]
      exact ⟨_, rfl, set_nq_mc_get_same nd nc_id
        ((nq_type * NQ_TYPE_PER_ENGINE + eng_index) % 256) none⟩
    · rw [nc_nq_destroy_full_default_eq am nd mc nc_id eng_index nq_type hnc hq ht hmc]
        at h
      exact absurd h neg_one_ne_zero_int

theorem nc_nq_mmap_none_eq (sf : Bool) (rr : Int) (nd : neuron_device)
    (nc_id eng_index nq_type : Nat) (vma : vm_area_struct)
    (hnc : nc_id < V1_NC_PER_DEVICE)
    (hq : (nq_type * NQ_TYPE_PER_ENGINE + eng_index) % 256 < MAX_NQ_SUPPORTED)
    (hslot : nd.nq_mc nc_id ((nq_type * NQ_TYPE_PER_ENGINE + eng_index) % 256) = none) :
    nc_nq_mmap sf rr (some nd) nc_id eng_index nq_type vma = ⟨-EINVAL, none, vma⟩ := by
  simp only [nc_nq_mmap]
  rw [if_neg (Nat.not_le.mpr hnc), if_neg (Nat.not_le.mpr hq), hslot]

theorem nc_nq_mmap_some_eq (nd : neuron_device) (mc : mem_chunk)
    (nc_id eng_index nq_type : Nat) (vma : vm_area_struct)
    (hnc : nc_id < V1_NC_PER_DEVICE)
    (hq : (nq_type * NQ_TYPE_PER_ENGINE + eng_index) % 256 < MAX_NQ_SUPPORTED)
    (hslot : nd.nq_mc nc_id ((nq_type * NQ_TYPE_PER_ENGINE + eng_index) % 256) = some mc) :
    nc_nq_mmap false 0 (some nd) nc_id eng_index nq_type vma =
      ⟨0, some (PHYS_PFN mc.pa, mc.size),
       vm_area_struct.mk vma.vm_start (Nat.lor vma.vm_flags VM_NQ_FLAGS)⟩ := by
  simp only [nc_nq_mmap]
  rw [if_neg (Nat.not_le.mpr hnc), if_neg (Nat.not_le.mpr hq), hslot]
  simp

/-- C1: for every valid triple (core < V1_NC_PER_DEVICE, engine <
MAX_NQ_ENGINE, type < NQ_TYPE_PER_ENGINE), decoding the offset produced
by encoding recovers the same triple: `nc_get_nq_from_mmap_offset`
applied to the offset returned by `nc_get_nq_mmap_offset (core, engine,
type)` succeeds and yields exactly `(core, engine, type)`. -/
theorem nq_mmap_offset_roundtrip :
    ∀ c < V1_NC_PER_DEVICE, ∀ e < MAX_NQ_ENGINE, ∀ t < NQ_TYPE_PER_ENGINE,
      (nc_get_nq_mmap_offset c e t).bind nc_get_nq_from_mmap_offset =
        Except.ok (c, e, t) := by
  intro c hc
  have hc4 : c < 4 := hc
  interval_cases c <;> decide

/-- C1 witness: the round trip at the concrete triple (2, 1, 3). -/
theorem nq_mmap_offset_roundtrip_witness :
    (nc_get_nq_mmap_offset 2 1 3).bind nc_get_nq_from_mmap_offset =
      Except.ok (2, 1, 3) :=
  nq_mmap_offset_roundtrip 2 (by decide) 1 (by decide) 3 (by decide)

/-- C2: the bounds checks of the offset codec and of the semaphore/event
accessors are written `index > COUNT`, so an identifier exactly equal to
its declared bound is accepted and an address/offset is computed for it,
contrary to the claim that it is rejected with `-EINVAL`; only
identifiers strictly beyond the bound are rejected.  Evaluated at the
failing inputs: `semaphore_index = V1_SEMAPHORE_COUNT`,
`event_index = V1_EVENTS_COUNT`, and the boundary identifiers of
`nc_get_nq_mmap_offset`. -/
theorem inclusive_bound_accepts_boundary :
    nc_semaphore_read am0 nd0 0 V1_SEMAPHORE_COUNT =
      Except.ok (16 + 1 + V1_SEMAPHORE_COUNT * NC_SEMAPHORE_SIZE) ∧
    nc_semaphore_write am0 nd0 0 V1_SEMAPHORE_COUNT 9 =
      Except.ok (16 + 2 + V1_SEMAPHORE_COUNT * NC_SEMAPHORE_SIZE, 9) ∧
    nc_semaphore_increment am0 nd0 0 V1_SEMAPHORE_COUNT 9 =
      Except.ok (16 + 3 + V1_SEMAPHORE_COUNT * NC_SEMAPHORE_SIZE, 9) ∧
    nc_semaphore_decrement am0 nd0 0 V1_SEMAPHORE_COUNT 9 =
      Except.ok (16 + 5 + V1_SEMAPHORE_COUNT * NC_SEMAPHORE_SIZE, 9) ∧
    nc_event_get am0 nd0 0 V1_EVENTS_COUNT =
      Except.ok (16 + 7 + V1_EVENTS_COUNT * NC_EVENT_SIZE) ∧
    nc_event_set am0 nd0 0 V1_EVENTS_COUNT 1 =
      Except.ok (16 + 7 + V1_EVENTS_COUNT * NC_EVENT_SIZE, 1) ∧
    nc_get_nq_mmap_offset V1_NC_PER_DEVICE 0 0 =
      Except.ok (V1_NC_PER_DEVICE * NC_NQ_MMAP_SIZE_PER_NC) ∧
    nc_get_nq_mmap_offset 0 MAX_NQ_ENGINE 0 =
      Except.ok (MAX_NQ_ENGINE * NC_NQ_MMAP_SIZE_PER_ENGINE) ∧
    nc_get_nq_mmap_offset 0 0 NQ_TYPE_PER_ENGINE =
      Except.ok (NQ_TYPE_PER_ENGINE * NC_NQ_MMAP_SIZE_PER_NQ) ∧
    nc_semaphore_read am0 nd0 0 (V1_SEMAPHORE_COUNT + 1) =
      Except.error (-EINVAL) ∧
    nc_event_get am0 nd0 0 (V1_EVENTS_COUNT + 1) = Except.error (-EINVAL) ∧
    nc_get_nq_mmap_offset (V1_NC_PER_DEVICE + 1) 0 0 = Except.error (-EINVAL) := by
  decide

/-- C3: every offset strictly below the total range decodes successfully,
and re-encoding the decoded triple lands at or below the offset, strictly
within one queue-window stride (`NC_NQ_MMAP_SIZE_PER_NQ`) of it. -/
theorem nq_offset_decode_window (o : Nat) (h : o < NC_NQ_MMAP_END_OFFSET) :
    ∃ c e t enc,
      nc_get_nq_from_mmap_offset o = Except.ok (c, e, t) ∧
      nc_get_nq_mmap_offset c e t = Except.ok enc ∧
      enc ≤ o ∧ o < enc + NC_NQ_MMAP_SIZE_PER_NQ := by
  rw [end_offset_eq] at h
  refine ⟨o / 17179869184, o % 17179869184 / 4294967296,
    o % 17179869184 % 4294967296 / 1073741824,
    o / 17179869184 * 17179869184 + o % 17179869184 / 4294967296 * 4294967296 +
      o % 17179869184 % 4294967296 / 1073741824 * 1073741824, ?_, ?_, ?_, ?_⟩
  · simp only [nc_get_nq_from_mmap_offset, NC_NQ_MMAP_START_OFFSET, end_offset_eq,
      per_nc_eq, per_engine_eq, per_nq_eq]
    rw [if_neg (by omega), if_neg (by omega)]
    simp
  · simp only [nc_get_nq_mmap_offset, NC_NQ_MMAP_START_OFFSET, V1_NC_PER_DEVICE,
      MAX_NQ_ENGINE, NQ_TYPE_PER_ENGINE, per_nc_eq, per_engine_eq, per_nq_eq]
    rw [if_neg (by omega), if_neg (by omega), if_neg (by omega)]
    simp only [Except.ok.injEq]
    omega
  · omega
  · rw [per_nq_eq]
    omega

/-- C3 witness: the window property at the concrete offset 30 GiB. -/
theorem nq_offset_decode_window_witness :
    ∃ c e t enc,
      nc_get_nq_from_mmap_offset 32212254720 = Except.ok (c, e, t) ∧
      nc_get_nq_mmap_offset c e t = Except.ok enc ∧
      enc ≤ 32212254720 ∧ 32212254720 < enc + NC_NQ_MMAP_SIZE_PER_NQ :=
  nq_offset_decode_window 32212254720 (by decide)

/-- C4 counterexample: with the core identifier out of range (nc_id =
V1_NC_PER_DEVICE, or even 255), every semaphore/event operation still
computes a register address from it and proceeds, instead of returning
`-EINVAL`: no operation in src/neuron_core.c validates `nc_id`. -/
theorem sem_event_no_nc_id_check_cex :
    nc_semaphore_read am0 nd0 V1_NC_PER_DEVICE 0 = Except.ok (16 + 4 * 8 + 1) ∧
    nc_semaphore_write am0 nd0 255 0 9 = Except.ok (16 + 255 * 8 + 2, 9) ∧
    nc_semaphore_increment am0 nd0 255 0 9 = Except.ok (16 + 255 * 8 + 3, 9) ∧
    nc_semaphore_decrement am0 nd0 255 0 9 = Except.ok (16 + 255 * 8 + 5, 9) ∧
    nc_event_get am0 nd0 V1_NC_PER_DEVICE 0 = Except.ok (16 + 4 * 8 + 7) ∧
    nc_event_set am0 nd0 V1_NC_PER_DEVICE 0 9 = Except.ok (16 + 4 * 8 + 7, 9) := by
  decide

/-- C4 amended: the semaphore/event operations validate only the
semaphore/event index (inclusively, see C2) and never the core identifier:
for every `nc_id` - in range or not - and every accepted index, the
operation succeeds and the register address is computed from `nc_id`. -/
theorem sem_event_addr_ignores_nc_id (am : address_map) (nd : neuron_device)
    (nc_id sidx eidx value : Nat) (hs : sidx ≤ V1_SEMAPHORE_COUNT)
    (he : eidx ≤ V1_EVENTS_COUNT) :
    nc_semaphore_read am nd nc_id sidx =
      Except.ok (nc_get_semaphore_base am nd nc_id + am.MMAP_NC_SEMA_READ_OFFSET
        + sidx * NC_SEMAPHORE_SIZE) ∧
    nc_semaphore_write am nd nc_id sidx value =
      Except.ok (nc_get_semaphore_base am nd nc_id + am.MMAP_NC_SEMA_SET_OFFSET
        + sidx * NC_SEMAPHORE_SIZE, value) ∧
    nc_semaphore_increment am nd nc_id sidx value =
      Except.ok (nc_get_semaphore_base am nd nc_id + am.MMAP_NC_SEMA_INCR_OFFSET
        + sidx * NC_SEMAPHORE_SIZE, value) ∧
    nc_semaphore_decrement am nd nc_id sidx value =
      Except.ok (nc_get_semaphore_base am nd nc_id + am.MMAP_NC_SEMA_DECR_OFFSET
        + sidx * NC_SEMAPHORE_SIZE, value) ∧
    nc_event_get am nd nc_id eidx = Except.ok (nc_get_event_addr am nd nc_id eidx) ∧
    nc_event_set am nd nc_id eidx value =
      Except.ok (nc_get_event_addr am nd nc_id eidx, value) := by
  refine ⟨?_, ?_, ?_, ?_, ?_, ?_⟩ <;>
    simp [nc_semaphore_read, nc_semaphore_write, nc_semaphore_increment,
      nc_semaphore_decrement, nc_event_get, nc_event_set,
      Nat.not_lt.mpr hs, Nat.not_lt.mpr he]

/-- C4 amended witness: the read accessor at the out-of-range core 77. -/
theorem sem_event_addr_ignores_nc_id_witness :
    nc_semaphore_read am0 nd0 77 0 =
      Except.ok (nc_get_semaphore_base am0 nd0 77 + am0.MMAP_NC_SEMA_READ_OFFSET
        + 0 * NC_SEMAPHORE_SIZE) :=
  (sem_event_addr_ignores_nc_id am0 nd0 77 0 0 9 (by decide) (by decide)).1

/-- C5: if the chunk slot for (core, engine, type) is empty, a first
successful `nc_nq_init` invokes the allocator exactly once; a second
`nc_nq_init` on the resulting device state (same triple, same size, any
allocator behaviour) invokes the allocator zero times but performs the
three configuration-register writes again - address-low into `cfg_0`,
address-high into `cfg_1`, size into `cfg_2`. -/
theorem nq_init_twice_allocates_once (am : address_map) (nd : neuron_device)
    (alloc2 : Except Int mem_chunk) (mc : mem_chunk)
    (nc_id eng_index nq_type size : Nat)
    (hnc : nc_id < V1_NC_PER_DEVICE) (ht : nq_type < NQ_TYPE_MAX)
    (hq : (nq_type * NQ_TYPE_PER_ENGINE + eng_index) % 256 < MAX_NQ_SUPPORTED)
    (hslot : nd.nq_mc nc_id ((nq_type * NQ_TYPE_PER_ENGINE + eng_index) % 256) = none) :
    (nc_nq_init am (Except.ok mc) (some nd) nc_id eng_index nq_type size).ret = 0 ∧
    (nc_nq_init am (Except.ok mc) (some nd) nc_id eng_index nq_type size).trace.countP
      effect.is_alloc = 1 ∧
    (nc_nq_init am alloc2
      (nc_nq_init am (Except.ok mc) (some nd) nc_id eng_index nq_type size).nd
      nc_id eng_index nq_type size).ret = 0 ∧
    (nc_nq_init am alloc2
      (nc_nq_init am (Except.ok mc) (some nd) nc_id eng_index nq_type size).nd
      nc_id eng_index nq_type size).trace.countP effect.is_alloc = 0 ∧
    (nc_nq_init am alloc2
      (nc_nq_init am (Except.ok mc) (some nd) nc_id eng_index nq_type size).nd
      nc_id eng_index nq_type size).trace.filterMap effect.cfg_index = [0, 1, 2] ∧
    (nc_nq_init am alloc2
      (nc_nq_init am (Except.ok mc) (some nd) nc_id eng_index nq_type size).nd
      nc_id eng_index nq_type size).trace.filterMap effect.cfg_value =
      [Nat.lor mc.pa am.PCIEX8_0_BASE % 2 ^ 32,
       Nat.lor mc.pa am.PCIEX8_0_BASE / 2 ^ 32 % 2 ^ 32, size] := by
  have ht4 : nq_type < 4 := ht
  have hfirst := nc_nq_init_empty_ok_eq am mc nd nc_id eng_index nq_type size hnc hq hslot
  have hslot2 := set_nq_mc_get_same nd nc_id
    ((nq_type * NQ_TYPE_PER_ENGINE + eng_index) % 256) (some mc)
  interval_cases nq_type <;>
    (rw [hfirst]
     simp only [nc_nq_program_trace_eq, nc_nq_program_notify_eq, nc_nq_program_event_eq,
       nc_nq_program_error_eq]
     rw [nc_nq_init_full_eq am alloc2 _ nc_id eng_index _ size mc hnc hq hslot2]
     simp only [nc_nq_program_trace_eq, nc_nq_program_notify_eq, nc_nq_program_event_eq,
       nc_nq_program_error_eq]
     simp [effect.is_alloc, effect.cfg_index, effect.cfg_value])

/-- C5 witness: the double-init property at core 1, engine 2, type 3
(nq_id 14) on an empty device, with a failing allocator on the second
call. -/
theorem nq_init_twice_allocates_once_witness :
    (nc_nq_init am0 (Except.ok (mem_chunk.mk 8192 64)) (some nd0) 1 2 3 64).ret = 0 ∧
    (nc_nq_init am0 (Except.ok (mem_chunk.mk 8192 64))
      (some nd0) 1 2 3 64).trace.countP effect.is_alloc = 1 ∧
    (nc_nq_init am0 (Except.error (-12))
      (nc_nq_init am0 (Except.ok (mem_chunk.mk 8192 64)) (some nd0) 1 2 3 64).nd
      1 2 3 64).ret = 0 ∧
    (nc_nq_init am0 (Except.error (-12))
      (nc_nq_init am0 (Except.ok (mem_chunk.mk 8192 64)) (some nd0) 1 2 3 64).nd
      1 2 3 64).trace.countP effect.is_alloc = 0 ∧
    (nc_nq_init am0 (Except.error (-12))
      (nc_nq_init am0 (Except.ok (mem_chunk.mk 8192 64)) (some nd0) 1 2 3 64).nd
      1 2 3 64).trace.filterMap effect.cfg_index = [0, 1, 2] ∧
    (nc_nq_init am0 (Except.error (-12))
      (nc_nq_init am0 (Except.ok (mem_chunk.mk 8192 64)) (some nd0) 1 2 3 64).nd
      1 2 3 64).trace.filterMap effect.cfg_value =
      [Nat.lor 8192 am0.PCIEX8_0_BASE % 2 ^ 32,
       Nat.lor 8192 am0.PCIEX8_0_BASE / 2 ^ 32 % 2 ^ 32, 64] :=
  nq_init_twice_allocates_once am0 nd0 (Except.error (-12)) (mem_chunk.mk 8192 64)
    1 2 3 64 (by decide) (by decide) (by decide) rfl

/-- C6: `nc_nq_destroy` on a (core, engine, type) whose chunk slot is
empty returns 0 with the device state unchanged and an empty effect
trace: no register write, no delay, no allocator release. -/
theorem nq_destroy_uninitialized_noop (am : address_map) (nd : neuron_device)
    (nc_id eng_index nq_type : Nat) (hnc : nc_id < V1_NC_PER_DEVICE)
    (hq : (nq_type * NQ_TYPE_PER_ENGINE + eng_index) % 256 < MAX_NQ_SUPPORTED)
    (hslot : nd.nq_mc nc_id ((nq_type * NQ_TYPE_PER_ENGINE + eng_index) % 256) = none) :
    nc_nq_destroy am (some nd) nc_id eng_index nq_type =
      nq_result.mk 0 (some nd) [] :=
  nc_nq_destroy_empty_eq am nd nc_id eng_index nq_type hnc hq hslot

/-- C6 witness: destroying the never-initialized queue (0, 0, 0) of an
empty device is a successful no-op. -/
theorem nq_destroy_uninitialized_noop_witness :
    nc_nq_destroy am0 (some nd0) 0 0 0 = nq_result.mk 0 (some nd0) [] :=
  nq_destroy_uninitialized_noop am0 nd0 0 0 0 (by decide) (by decide) rfl

/-- C7: `nc_nq_mmap` fails with `-EINVAL` whenever no memory chunk is
configured for the requested (core, truncated queue identity) - in
particular immediately after a successful `nc_nq_destroy` of that queue -
and after a successful `nc_nq_init` it succeeds (with the fault-injection
hook off and the mapping primitive succeeding), establishing a mapping of
exactly the configured chunk's physical range of length `mc->size`. -/
theorem nq_mmap_requires_configured_chunk (am : address_map)
    (alloc : Except Int mem_chunk) (nd : neuron_device)
    (nc_id eng_index nq_type size : Nat) (vma : vm_area_struct) (sf : Bool) (rr : Int)
    (hnc : nc_id < V1_NC_PER_DEVICE)
    (hq : (nq_type * NQ_TYPE_PER_ENGINE + eng_index) % 256 < MAX_NQ_SUPPORTED)
    (halloc : ∀ e : Int, alloc = Except.error e → e ≠ 0) :
    (nd.nq_mc nc_id ((nq_type * NQ_TYPE_PER_ENGINE + eng_index) % 256) = none →
      nc_nq_mmap sf rr (some nd) nc_id eng_index nq_type vma = ⟨-EINVAL, none, vma⟩) ∧
    ((nc_nq_destroy am (some nd) nc_id eng_index nq_type).ret = 0 →
      nc_nq_mmap sf rr (nc_nq_destroy am (some nd) nc_id eng_index nq_type).nd
        nc_id eng_index nq_type vma = ⟨-EINVAL, none, vma⟩) ∧
    ((nc_nq_init am alloc (some nd) nc_id eng_index nq_type size).ret = 0 →
      ∃ mc : mem_chunk,
        nc_nq_mmap false 0 (nc_nq_init am alloc (some nd) nc_id eng_index nq_type size).nd
          nc_id eng_index nq_type vma =
          ⟨0, some (PHYS_PFN mc.pa, mc.size),
           vm_area_struct.mk vma.vm_start (Nat.lor vma.vm_flags VM_NQ_FLAGS)⟩) := by
  refine ⟨fun hslot => nc_nq_mmap_none_eq sf rr nd nc_id eng_index nq_type vma hnc hq hslot,
    fun hd => ?_, fun hi => ?_⟩
  · obtain ⟨nd', hnd', hslot'⟩ := nc_nq_destroy_ret_zero_slot am nd nc_id eng_index
      nq_type hnc hq hd
    rw [hnd']
    exact nc_nq_mmap_none_eq sf rr nd' nc_id eng_index nq_type vma hnc hq hslot'
  · obtain ⟨nd', mc, hnd', hslot'⟩ := nc_nq_init_ret_zero_slot am alloc nd nc_id
      eng_index nq_type size halloc hi
    rw [hnd']
    exact ⟨mc, nc_nq_mmap_some_eq nd' mc nc_id eng_index nq_type vma hnc hq hslot'⟩

/-- C7 witness: on an empty device, mapping queue (1, 2, 3) fails with
`-EINVAL`; after a successful init of that queue, the same mapping
succeeds with the chunk's length. -/
theorem nq_mmap_requires_configured_chunk_witness :
    nc_nq_mmap false 0 (some nd0) 1 2 3 (vm_area_struct.mk 0 0) =
      ⟨-EINVAL, none, vm_area_struct.mk 0 0⟩ ∧
    ∃ mc : mem_chunk,
      nc_nq_mmap false 0
        (nc_nq_init am0 (Except.ok (mem_chunk.mk 8192 64)) (some nd0) 1 2 3 64).nd
        1 2 3 (vm_area_struct.mk 0 0) =
        ⟨0, some (PHYS_PFN mc.pa, mc.size),
         vm_area_struct.mk 0 (Nat.lor 0 VM_NQ_FLAGS)⟩ :=
  ⟨(nq_mmap_requires_configured_chunk am0 (Except.ok (mem_chunk.mk 8192 64)) nd0
      1 2 3 64 (vm_area_struct.mk 0 0) false 0 (by decide) (by decide)
      (fun _ h => nomatch h)).1 rfl,
   (nq_mmap_requires_configured_chunk am0 (Except.ok (mem_chunk.mk 8192 64)) nd0
      1 2 3 64 (vm_area_struct.mk 0 0) false 0 (by decide) (by decide)
      (fun _ h => nomatch h)).2.2 (by decide)⟩

/-- C8: destroying a configured queue with a known type performs, in this
strict order: the size-register clear (`cfg_2 := 0`), the two
address-register clears (`cfg_0 := 0`, then `cfg_1 := 0`), a fixed 1 ms
delay, and only then the chunk release; the ownership slot ends cleared.
The delay is strictly after all register clears and strictly before the
release. -/
theorem nq_destroy_effect_order (am : address_map) (nd : neuron_device) (mc : mem_chunk)
    (nc_id eng_index nq_type : Nat) (hnc : nc_id < V1_NC_PER_DEVICE)
    (ht : nq_type < NQ_TYPE_MAX)
    (hq : (nq_type * NQ_TYPE_PER_ENGINE + eng_index) % 256 < MAX_NQ_SUPPORTED)
    (hslot : nd.nq_mc nc_id ((nq_type * NQ_TYPE_PER_ENGINE + eng_index) % 256) = some mc) :
    ∃ ws : List effect,
      nc_nq_destroy am (some nd) nc_id eng_index nq_type =
        ⟨0, some (set_nq_mc nd nc_id ((nq_type * NQ_TYPE_PER_ENGINE + eng_index) % 256) none),
         ws⟩ ∧
      ws.filterMap effect.cfg_index = [2, 0, 1] ∧
      ws.filterMap effect.cfg_value = [0, 0, 0] ∧
      ∃ e2 e0 e1, ws = [e2, e0, e1, effect.msleep 1, effect.mc_free_call] :=
  nc_nq_destroy_full_eq am nd mc nc_id eng_index nq_type hnc hq ht hslot

/-- C8 witness: the ordered teardown of the configured queue (1, 2, 3). -/
theorem nq_destroy_effect_order_witness :
    ∃ ws : List effect,
      nc_nq_destroy am0 (some nd1) 1 2 3 =
        ⟨0, some (set_nq_mc nd1 1 ((3 * NQ_TYPE_PER_ENGINE + 2) % 256) none), ws⟩ ∧
      ws.filterMap effect.cfg_index = [2, 0, 1] ∧
      ws.filterMap effect.cfg_value = [0, 0, 0] ∧
      ∃ e2 e0 e1, ws = [e2, e0, e1, effect.msleep 1, effect.mc_free_call] :=
  nq_destroy_effect_order am0 nd1 (mem_chunk.mk 8192 64) 1 2 3
    (by decide) (by decide) (by decide) rfl

/-- C9 counterexample: `nc_nq_init` with the unknown queue type 64 - whose
u8-truncated queue identity `(64 * 4 + 0) % 256 = 0` passes the bound
check - on an empty slot allocates a chunk, stores it in the slot, and
only then fails with `-1` in the `switch` default: this error return
leaves the device state changed, refuting the claim that every failure is
detected before any side effect. -/
theorem nq_init_error_after_alloc_cex :
    (nc_nq_init am0 (Except.ok (mem_chunk.mk 8192 64)) (some nd0) 0 0 64 64).ret = -1 ∧
    nd0.nq_mc 0 0 = none ∧
    ((nc_nq_init am0 (Except.ok (mem_chunk.mk 8192 64)) (some nd0) 0 0 64 64).nd.map
      (fun d => d.nq_mc 0 0)) = some (some (mem_chunk.mk 8192 64)) ∧
    (nc_nq_init am0 (Except.ok (mem_chunk.mk 8192 64)) (some nd0) 0 0 64 64).trace.countP
      effect.is_alloc = 1 := by
  decide

/-- C9 amended: an error return of `nc_nq_init` never writes a
configuration register; every validation failure (null device, core id or
derived queue identity out of bound) returns `-EINVAL` with the device
state unchanged and no effect issued; an allocator failure leaves the
state unchanged (though the allocator was invoked).  The one remaining
error path - an unrecognized queue type whose truncated identity passed
the bound check - can return `-1` after allocating and storing a chunk
(see the counterexample). -/
theorem nq_init_error_paths (am : address_map) (alloc : Except Int mem_chunk)
    (ndo : Option neuron_device) (nc_id eng_index nq_type size : Nat) :
    ((nc_nq_init am alloc ndo nc_id eng_index nq_type size).ret ≠ 0 →
      (nc_nq_init am alloc ndo nc_id eng_index nq_type size).trace.countP
        effect.is_cfg_write = 0) ∧
    ((ndo = none ∨ V1_NC_PER_DEVICE ≤ nc_id ∨
        MAX_NQ_SUPPORTED ≤ (nq_type * NQ_TYPE_PER_ENGINE + eng_index) % 256) →
      (nc_nq_init am alloc ndo nc_id eng_index nq_type size).ret = -EINVAL ∧
      (nc_nq_init am alloc ndo nc_id eng_index nq_type size).nd = ndo ∧
      (nc_nq_init am alloc ndo nc_id eng_index nq_type size).trace = []) ∧
    (∀ e : Int, alloc = Except.error e →
      (nc_nq_init am alloc ndo nc_id eng_index nq_type size).nd = ndo) := by
  cases ndo with
  | none => exact ⟨fun _ => rfl, fun _ => ⟨rfl, rfl, rfl⟩, fun _ _ => rfl⟩
  | some nd =>
    rcases Nat.lt_or_ge nc_id V1_NC_PER_DEVICE with hnc | hnc
    · rcases Nat.lt_or_ge ((nq_type * NQ_TYPE_PER_ENGINE + eng_index) % 256)
        MAX_NQ_SUPPORTED with hq | hq
      · have hbfalse : ¬ (some nd = none ∨ V1_NC_PER_DEVICE ≤ nc_id ∨
            MAX_NQ_SUPPORTED ≤ (nq_type * NQ_TYPE_PER_ENGINE + eng_index) % 256) := by
          rintro (hb | hb | hb)
          · exact Option.noConfusion hb
          · exact absurd hb (Nat.not_le.mpr hnc)
          · exact absurd hb (Nat.not_le.mpr hq)
        rcases hmc : nd.nq_mc nc_id ((nq_type * NQ_TYPE_PER_ENGINE + eng_index) % 256)
          with _ | mc
        · cases alloc with
          | error e0 =>
            rw [nc_nq_init_empty_err_eq am e0 nd nc_id eng_index nq_type size hnc hq hmc]
            exact ⟨fun _ => rfl, fun hb => absurd hb hbfalse, fun _ _ => rfl⟩
          | ok mc' =>
            rw [nc_nq_init_empty_ok_eq am mc' nd nc_id eng_index nq_type size hnc hq hmc]
            rcases Nat.lt_or_ge nq_type NQ_TYPE_MAX with ht | ht
            · have h0 := nc_nq_program_ret_of_lt am
                (set_nq_mc nd nc_id ((nq_type * NQ_TYPE_PER_ENGINE + eng_index) % 256)
                  (some mc')) mc' nc_id eng_index nq_type size
                [effect.mc_alloc_call size] ht
              exact ⟨fun hr => absurd h0 hr, fun hb => absurd hb hbfalse,
                fun _ he => nomatch he⟩
            · rw [nc_nq_program_default_eq am
                (set_nq_mc nd nc_id ((nq_type * NQ_TYPE_PER_ENGINE + eng_index) % 256)
                  (some mc')) mc' nc_id eng_index nq_type size
                [effect.mc_alloc_call size] ht]
              exact ⟨fun _ => rfl, fun hb => absurd hb hbfalse, fun _ he => nomatch he⟩
        · rw [nc_nq_init_full_eq am alloc nd nc_id eng_index nq_type size mc hnc hq hmc]
          rcases Nat.lt_or_ge nq_type NQ_TYPE_MAX with ht | ht
          · have h0 := nc_nq_program_ret_of_lt am nd mc nc_id eng_index nq_type size [] ht
            refine ⟨fun hr => absurd h0 hr, fun hb => absurd hb hbfalse, fun _ _ => ?_⟩
            obtain ⟨nd', hnd', hrfl⟩ := nc_nq_program_slot_preserved am nd mc
              nc_id eng_index nq_type size []
            rw [hnd', hrfl]
          · rw [nc_nq_program_default_eq am nd mc nc_id eng_index nq_type size [] ht]
            exact ⟨fun _ => rfl, fun hb => absurd hb hbfalse, fun _ _ => rfl⟩
      · rw [nc_nq_init_q_oob_eq am alloc nd nc_id eng_index nq_type size hnc hq]
        exact ⟨fun _ => rfl, fun _ => ⟨rfl, rfl, rfl⟩, fun _ _ => rfl⟩
    · rw [nc_nq_init_nc_oob_eq am alloc nd nc_id eng_index nq_type size hnc]
      exact ⟨fun _ => rfl, fun _ => ⟨rfl, rfl, rfl⟩, fun _ _ => rfl⟩

/-- C9 amended witness: an init call with the core id 7 out of range and a
failing allocator - the call fails with `-EINVAL`, writes nothing, and
leaves the device unchanged. -/
theorem nq_init_error_paths_witness :
    (nc_nq_init am0 (Except.error (-12)) (some nd0) 7 0 0 64).trace.countP
      effect.is_cfg_write = 0 ∧
    ((nc_nq_init am0 (Except.error (-12)) (some nd0) 7 0 0 64).ret = -EINVAL ∧
     (nc_nq_init am0 (Except.error (-12)) (some nd0) 7 0 0 64).nd = some nd0 ∧
     (nc_nq_init am0 (Except.error (-12)) (some nd0) 7 0 0 64).trace = []) ∧
    (nc_nq_init am0 (Except.error (-12)) (some nd0) 7 0 0 64).nd = some nd0 :=
  ⟨(nq_init_error_paths am0 (Except.error (-12)) (some nd0) 7 0 0 64).1 (by decide),
   (nq_init_error_paths am0 (Except.error (-12)) (some nd0) 7 0 0 64).2.1
     (Or.inr (Or.inl (by decide))),
   (nq_init_error_paths am0 (Except.error (-12)) (some nd0) 7 0 0 64).2.2 (-12) rfl⟩

/-- C10 counterexample: with engine_index = 5 at or beyond MAX_NQ_ENGINE
(= 4) and nq_type = 0, the derived queue identity 5 is below
MAX_NQ_SUPPORTED and `nc_nq_init` accepts the call (returns 0,
programming registers with the out-of-range engine index) instead of
rejecting it with `-EINVAL`; an unknown queue type whose truncated
identity passes the check (nq_type = 64) fails with the generic `-1`, not
`-EINVAL`. -/
theorem nq_init_no_engine_bound_cex :
    MAX_NQ_ENGINE ≤ 5 ∧
    (0 * NQ_TYPE_PER_ENGINE + 5) % 256 < MAX_NQ_SUPPORTED ∧
    (nc_nq_init am0 (Except.ok (mem_chunk.mk 8192 64)) (some nd0) 0 5 0 64).ret = 0 ∧
    NQ_TYPE_MAX ≤ 64 ∧
    (nc_nq_init am0 (Except.ok (mem_chunk.mk 8192 64)) (some nd0) 0 0 64 64).ret ≠
      -EINVAL := by
  decide

/-- C10 amended: with a successful allocator, `nc_nq_init` returns
`-EINVAL` exactly when the device is null, the core identifier is at or
beyond `V1_NC_PER_DEVICE`, or the u8-truncated derived queue identity is
at or beyond `MAX_NQ_SUPPORTED`.  The engine index and the queue type are
not independently validated: when those three checks pass, a known queue
type is accepted (returns 0) even with `engine_index ≥ MAX_NQ_ENGINE`,
and an unknown queue type yields the generic `-1`, not `-EINVAL`. -/
theorem nq_init_einval_iff (am : address_map) (mc : mem_chunk)
    (ndo : Option neuron_device) (nc_id eng_index nq_type size : Nat) :
    ((nc_nq_init am (Except.ok mc) ndo nc_id eng_index nq_type size).ret = -EINVAL ↔
      (ndo = none ∨ V1_NC_PER_DEVICE ≤ nc_id ∨
        MAX_NQ_SUPPORTED ≤ (nq_type * NQ_TYPE_PER_ENGINE + eng_index) % 256)) ∧
    (ndo ≠ none → nc_id < V1_NC_PER_DEVICE →
      (nq_type * NQ_TYPE_PER_ENGINE + eng_index) % 256 < MAX_NQ_SUPPORTED →
      nq_type < NQ_TYPE_MAX →
      (nc_nq_init am (Except.ok mc) ndo nc_id eng_index nq_type size).ret = 0) ∧
    (ndo ≠ none → nc_id < V1_NC_PER_DEVICE →
      (nq_type * NQ_TYPE_PER_ENGINE + eng_index) % 256 < MAX_NQ_SUPPORTED →
      NQ_TYPE_MAX ≤ nq_type →
      (nc_nq_init am (Except.ok mc) ndo nc_id eng_index nq_type size).ret = -1) := by
  cases ndo with
  | none =>
    exact ⟨iff_of_true rfl (Or.inl rfl), fun h => absurd rfl h, fun h => absurd rfl h⟩
  | some nd =>
    rcases Nat.lt_or_ge nc_id V1_NC_PER_DEVICE with hnc | hnc
    · rcases Nat.lt_or_ge ((nq_type * NQ_TYPE_PER_ENGINE + eng_index) % 256)
        MAX_NQ_SUPPORTED with hq | hq
      · have hbfalse : ¬ (some nd = none ∨ V1_NC_PER_DEVICE ≤ nc_id ∨
            MAX_NQ_SUPPORTED ≤ (nq_type * NQ_TYPE_PER_ENGINE + eng_index) % 256) := by
          rintro (hb | hb | hb)
          · exact Option.noConfusion hb
          · exact absurd hb (Nat.not_le.mpr hnc)
          · exact absurd hb (Nat.not_le.mpr hq)
        rcases hmc : nd.nq_mc nc_id ((nq_type * NQ_TYPE_PER_ENGINE + eng_index) % 256)
          with _ | mc0
        · rw [nc_nq_init_empty_ok_eq am mc nd nc_id eng_index nq_type size hnc hq hmc]
          rcases Nat.lt_or_ge nq_type NQ_TYPE_MAX with ht | ht
          · have h0 := nc_nq_program_ret_of_lt am
              (set_nq_mc nd nc_id ((nq_type * NQ_TYPE_PER_ENGINE + eng_index) % 256)
                (some mc)) mc nc_id eng_index nq_type size
              [effect.mc_alloc_call size] ht
            refine ⟨iff_of_false ?_ hbfalse, fun _ _ _ _ => h0,
              fun _ _ _ htge => absurd htge (Nat.not_le.mpr ht)⟩
            rw [h0]
            exact zero_ne_neg_EINVAL
          · rw [nc_nq_program_default_eq am
              (set_nq_mc nd nc_id ((nq_type * NQ_TYPE_PER_ENGINE + eng_index) % 256)
                (some mc)) mc nc_id eng_index nq_type size
              [effect.mc_alloc_call size] ht]
            exact ⟨iff_of_false neg_one_ne_neg_EINVAL hbfalse,
              fun _ _ _ htlt => absurd htlt (Nat.not_lt.mpr ht), fun _ _ _ _ => rfl⟩
        · rw [nc_nq_init_full_eq am (Except.ok mc) nd nc_id eng_index nq_type size mc0
            hnc hq hmc]
          rcases Nat.lt_or_ge nq_type NQ_TYPE_MAX with ht | ht
          · have h0 := nc_nq_program_ret_of_lt am nd mc0 nc_id eng_index nq_type size [] ht
            refine ⟨iff_of_false ?_ hbfalse, fun _ _ _ _ => h0,
              fun _ _ _ htge => absurd htge (Nat.not_le.mpr ht)⟩
            rw [h0]
            exact zero_ne_neg_EINVAL
          · rw [nc_nq_program_default_eq am nd mc0 nc_id eng_index nq_type size [] ht]
            exact ⟨iff_of_false neg_one_ne_neg_EINVAL hbfalse,
              fun _ _ _ htlt => absurd htlt (Nat.not_lt.mpr ht), fun _ _ _ _ => rfl⟩
      · rw [nc_nq_init_q_oob_eq am (Except.ok mc) nd nc_id eng_index nq_type size hnc hq]
        exact ⟨iff_of_true rfl (Or.inr (Or.inr hq)),
          fun _ _ hqlt _ => absurd hqlt (Nat.not_lt.mpr hq), fun _ _ hqlt _ =>
            absurd hqlt (Nat.not_lt.mpr hq)⟩
    · rw [nc_nq_init_nc_oob_eq am (Except.ok mc) nd nc_id eng_index nq_type size hnc]
      exact ⟨iff_of_true rfl (Or.inr (Or.inl hnc)),
        fun _ hnclt _ _ => absurd hnclt (Nat.not_lt.mpr hnc), fun _ hnclt _ _ =>
          absurd hnclt (Nat.not_lt.mpr hnc)⟩

/-- C10 amended witness: the out-of-range engine 5 is accepted with
result 0, and the unknown type 64 fails with -1, not -EINVAL. -/
theorem nq_init_einval_iff_witness :
    (nc_nq_init am0 (Except.ok (mem_chunk.mk 8192 64)) (some nd0) 0 5 0 64).ret = 0 ∧
    (nc_nq_init am0 (Except.ok (mem_chunk.mk 8192 64)) (some nd0) 0 0 64 64).ret = -1 :=
  ⟨(nq_init_einval_iff am0 (mem_chunk.mk 8192 64) (some nd0) 0 5 0 64).2.1
      (fun h => Option.noConfusion h) (by decide) (by decide) (by decide),
   (nq_init_einval_iff am0 (mem_chunk.mk 8192 64) (some nd0) 0 0 64 64).2.2
      (fun h => Option.noConfusion h) (by decide) (by decide) (by decide)⟩

end NeuronCore
